import Mathlib

/-!
Verification development for the data-validation-engine repository.

The Python sources are shallowly embedded: polars dataframes become a
`DF` structure (named, typed columns over a list of rows of dynamically
typed cells), pandas dataframes with an index become `PDF`, machine
floats become exact rationals (all arithmetic the claims depend on is
integer-valued or threshold comparisons), and fallible operations
return `Option`/`Except`.  Textual fields that no computation consults
(log messages, recommendation strings, the formatted `reason` field of
a remediation action) are omitted from the embedded records.
-/

namespace DVE

/-! ## Generic list helpers -/

/-- Apply `f` to the element at position `i`, leave the rest unchanged
(model of a polars `with_columns` touching a single column of a row). -/
def mapAt (f : α → α) : Nat → List α → List α
  | _, [] => []
  | 0, a :: t => f a :: t
  | n + 1, a :: t => a :: mapAt f n t

theorem mapAt_mapAt (f : α → α) (hf : ∀ x, f (f x) = f x) :
    ∀ (i : Nat) (l : List α), mapAt f i (mapAt f i l) = mapAt f i l := by
  intro i l
  induction l generalizing i with
  | nil => cases i <;> rfl
  | cons a t ih =>
    cases i with
    | zero => simp [mapAt, hf]
    | succ n => simp [mapAt, ih]

/-- Helper for `dedupFirst`: drop elements already seen. -/
def dedupFirstGo [DecidableEq α] (seen : List α) : List α → List α
  | [] => []
  | a :: t => if a ∈ seen then dedupFirstGo seen t else a :: dedupFirstGo (a :: seen) t

/-- Deduplication keeping the first occurrence of each element, the
deterministic model of the polars `DataFrame.unique()` call. -/
def dedupFirst [DecidableEq α] (l : List α) : List α :=
  dedupFirstGo [] l

theorem mem_dedupFirstGo [DecidableEq α] {x : α} :
    ∀ {l seen : List α}, x ∈ dedupFirstGo seen l → x ∉ seen := by
  intro l
  induction l with
  | nil => intro seen h; exact absurd h (by simp [dedupFirstGo])
  | cons a t ih =>
    intro seen h
    by_cases ha : a ∈ seen
    · refine ih ?_
      rw [dedupFirstGo, if_pos ha] at h
      exact h
    · rw [dedupFirstGo, if_neg ha] at h
      rcases List.mem_cons.mp h with h1 | h2
      · subst h1; exact ha
      · intro hx
        exact (ih h2) (List.mem_cons_of_mem _ hx)

theorem nodup_dedupFirstGo [DecidableEq α] :
    ∀ (l seen : List α), (dedupFirstGo seen l).Nodup := by
  intro l
  induction l with
  | nil => intro seen; simp [dedupFirstGo]
  | cons a t ih =>
    intro seen
    by_cases ha : a ∈ seen
    · rw [dedupFirstGo, if_pos ha]; exact ih seen
    · rw [dedupFirstGo, if_neg ha]
      refine List.nodup_cons.mpr ⟨?_, ih (a :: seen)⟩
      intro hmem
      exact (mem_dedupFirstGo hmem) (List.mem_cons_self a seen)

theorem dedupFirstGo_of_nodup [DecidableEq α] :
    ∀ (l seen : List α), l.Nodup → (∀ x ∈ l, x ∉ seen) → dedupFirstGo seen l = l := by
  intro l
  induction l with
  | nil => intro seen _ _; rfl
  | cons a t ih =>
    intro seen hnd hdis
    have ha : a ∉ seen := hdis a (List.mem_cons_self a t)
    rw [dedupFirstGo, if_neg ha]
    congr 1
    refine ih (a :: seen) (List.nodup_cons.mp hnd).2 ?_
    intro x hx
    simp only [List.mem_cons]
    rintro (rfl | hmem)
    · exact (List.nodup_cons.mp hnd).1 hx
    · exact hdis x (List.mem_cons_of_mem _ hx) hmem

theorem dedupFirst_idem [DecidableEq α] (l : List α) :
    dedupFirst (dedupFirst l) = dedupFirst l := by
  unfold dedupFirst
  exact dedupFirstGo_of_nodup _ [] (nodup_dedupFirstGo l []) (by simp)

theorem filter_self_idem (p : α → Bool) (l : List α) :
    (l.filter p).filter p = l.filter p := by
  induction l with
  | nil => rfl
  | cons a t ih =>
    by_cases ha : p a
    · simp [List.filter_cons, ha, ih]
    · simp [List.filter_cons, ha, ih]

theorem length_filter_not_eq_sub (p : α → Bool) (l : List α) :
    (l.filter (fun a => !(p a))).length = l.length - (l.filter p).length := by
  induction l with
  | nil => rfl
  | cons a t ih =>
    have hle : (t.filter p).length ≤ t.length := List.length_filter_le _ _
    cases hpa : p a
    · simp only [List.filter_cons, hpa, Bool.not_false, if_pos, List.length_cons, ih]
      simp only [Bool.false_eq_true, if_false]
      omega
    · simp only [List.filter_cons, hpa, Bool.not_true, List.length_cons, ih]
      simp only [if_true, Bool.false_eq_true, if_false, List.length_cons]
      omega

/-- Substring containment on character lists (model of Python's
`in` operator on strings). -/
def containsSub (hay needle : List Char) : Bool :=
  match hay with
  | [] => needle.isEmpty
  | _ :: t => needle.isPrefixOf hay || containsSub t needle

/-! ## Whitespace trimming

The polars `str.strip_chars()` (no argument) removes leading and
trailing whitespace.  We model it on the character list of the string.
-/

/-- Remove leading and trailing whitespace characters. -/
def trimChars (l : List Char) : List Char :=
  (l.dropWhile Char.isWhitespace).rdropWhile Char.isWhitespace

/-- Model of `str.strip_chars()` / `pandas.str.strip` on one string. -/
def strTrim (s : String) : String :=
  ⟨trimChars s.data⟩

theorem dropWhile_eq_self_of_prefix (p : α → Bool) {l m : List α}
    (hl : l.dropWhile p = l) (hm : m <+: l) : m.dropWhile p = m := by
  cases m with
  | nil => rfl
  | cons a t =>
    rcases hm with ⟨r, rfl⟩
    have ha : ¬ p a = true := by
      intro hpa
      have h2 : ((a :: t) ++ r).dropWhile p = (t ++ r).dropWhile p := by
        simp [List.dropWhile_cons, hpa]
      rw [h2] at hl
      have hlen := congrArg List.length hl
      have hle : ((t ++ r).dropWhile p).length ≤ (t ++ r).length :=
        (List.dropWhile_suffix p).sublist.length_le
      simp only [List.length_append, List.length_cons] at hlen hle
      omega
    simp [List.dropWhile_cons, ha]

theorem trimChars_idem (l : List Char) : trimChars (trimChars l) = trimChars l := by
  unfold trimChars
  have h2 : ((l.dropWhile Char.isWhitespace).rdropWhile Char.isWhitespace).dropWhile
      Char.isWhitespace = (l.dropWhile Char.isWhitespace).rdropWhile Char.isWhitespace :=
    dropWhile_eq_self_of_prefix _ (List.dropWhile_idempotent _ l)
      (List.rdropWhile_prefix _ _)
  rw [h2, List.rdropWhile_idempotent]

theorem strTrim_idem (s : String) : strTrim (strTrim s) = strTrim s := by
  simp [strTrim, trimChars_idem]

/-! ## Data model: dynamically typed cells and dataframes -/

/-- A cell value of a polars/pandas column: null, integer, float
(modelled exactly as a rational), string, or parsed calendar date. -/
inductive Val where
  | null
  | vInt (n : Int)
  | vFloat (q : ℚ)
  | vStr (s : String)
  | vDate (y m d : Nat)
deriving DecidableEq, Repr

/-- Declared column dtype (the ones the sources branch on). -/
inductive DType where
  | dInt
  | dFloat
  | dStr
  | dDate
deriving DecidableEq, Repr

/-- A polars dataframe: named typed columns over a row list.
Each row is a list of cells aligned with `cols`. -/
structure DF where
  cols : List (String × DType)
  rows : List (List Val)
deriving DecidableEq, Repr

def Val.isNull : Val → Bool
  | Val.null => true
  | _ => false

/-- Numeric view of a cell, when it is a non-null number. -/
def Val.num? : Val → Option ℚ
  | Val.vInt n => some (n : ℚ)
  | Val.vFloat q => some q
  | _ => none

def Val.isNumOrNull (v : Val) : Bool :=
  v.isNull || (v.num?).isSome

/-- Truth value of `v >= 0` as polars evaluates it inside `filter`:
a null (or non-numeric) comparison never keeps the row. -/
def Val.ge0 (v : Val) : Bool :=
  match v.num? with
  | some q => decide (0 ≤ q)
  | none => false

/-- Truth value of `v < 0` (used by the profiler's negative count;
null comparisons are null and are not counted by `.sum()`). -/
def Val.lt0 (v : Val) : Bool :=
  match v.num? with
  | some q => decide (q < 0)
  | none => false

/-- Truth value of `v == 0` under polars `.sum()` counting. -/
def Val.eq0 (v : Val) : Bool :=
  match v.num? with
  | some q => decide (q = 0)
  | none => false

/-- Cell of a row at column position `j` (rows are aligned with the
header, missing positions read as null). -/
def cellAt (r : List Val) (j : Nat) : Val :=
  r.getD j Val.null

/-- Position of column `c` in the header (`col in df.columns` +
column addressing). -/
def colIdx (df : DF) (c : String) : Option Nat :=
  df.cols.findIdx? (fun p => p.1 == c)

/-- Dtype of column `c`, when present. -/
def colDType (df : DF) (c : String) : Option DType :=
  (df.cols.find? (fun p => p.1 == c)).map Prod.snd

/-- The value list of the column at position `j`. -/
def colVals (df : DF) (j : Nat) : List Val :=
  df.rows.map (fun r => cellAt r j)

/-- Null count of the column at position `j` (`Series.null_count`). -/
def nullCountAt (df : DF) (j : Nat) : Nat :=
  ((colVals df j).filter Val.isNull).length

/-- Null percentage of the column at position `j`, as the sources
compute it: `null_count / len(df) * 100`.  In Python a zero-row frame
raises `ZeroDivisionError`; theorems that depend on this quantity
carry a nonemptiness hypothesis. -/
def nullPctAt (df : DF) (j : Nat) : ℚ :=
  (nullCountAt df j : ℚ) / (df.rows.length : ℚ) * 100

/-- Drop the column at position `j` (`DataFrame.drop`). -/
def dropColAt (df : DF) (j : Nat) : DF :=
  { cols := df.cols.eraseIdx j
    rows := df.rows.map (fun r => r.eraseIdx j) }

/-- Trim whitespace in the column at position `j`
(`pl.col(c).str.strip_chars()`). -/
def stripValAt : Val → Val
  | Val.vStr s => Val.vStr (strTrim s)
  | v => v

def stripColAt (df : DF) (j : Nat) : DF :=
  { df with rows := df.rows.map (mapAt stripValAt j) }

theorem stripValAt_idem (v : Val) : stripValAt (stripValAt v) = stripValAt v := by
  cases v <;> simp [stripValAt, strTrim_idem]

theorem stripColAt_idem (df : DF) (j : Nat) :
    stripColAt (stripColAt df j) j = stripColAt df j := by
  simp only [stripColAt, List.map_map]
  congr 1
  apply List.map_congr_left
  intro r _
  exact mapAt_mapAt _ stripValAt_idem j r

/-! ## Issues (DataProfilerAgent output, RemediationAgent input) -/

/-- Issue severity (`issue['severity']`). -/
inductive Sev where
  | HIGH
  | MEDIUM
  | LOW
  | INFO
deriving DecidableEq, Repr

/-- Issue type (`issue['type']`). -/
inductive IType where
  | HIGH_NULL_RATE
  | MODERATE_NULL_RATE
  | LOW_CARDINALITY
  | NEGATIVE_VALUES
  | WHITESPACE
  | DUPLICATES
  | EMPTY_COLUMN
deriving DecidableEq, Repr

/-- A detected data-quality issue.  The `message` and `recommendation`
strings of the source dictionaries are omitted: no computation reads
them. -/
structure Issue where
  severity : Sev
  itype : IType
  column : String
deriving DecidableEq, Repr

/-- A remediation action as appended to `remediation_actions`.  The
source stores the triggering issue, an action name determined by the
issue type, optionally the column and the number of rows removed, and
a status string (always `'SUCCESS'`); the formatted `reason` text of
the column-drop action is omitted. -/
structure Action where
  itype : IType
  column : Option String
  rowsRemoved : Option Nat
  status : String
deriving DecidableEq, Repr

/-! ## RemediationAgent.auto_remediate -/

/-- One iteration of the `for issue in issues` loop of
`RemediationAgent.auto_remediate`. -/
def remStep (df : DF) (acc : List Action) (i : Issue) : DF × List Action :=
  match i.itype with
  | IType.WHITESPACE =>
    match colIdx df i.column with
    | some j =>
      if (df.cols.get? j).map Prod.snd = some DType.dStr then
        (stripColAt df j,
         acc ++ [⟨IType.WHITESPACE, some i.column, none, "SUCCESS"⟩])
      else (df, acc)
    | none => (df, acc)
  | IType.DUPLICATES =>
    let rows' := dedupFirst df.rows
    ({ df with rows := rows' },
     acc ++ [⟨IType.DUPLICATES, none, some (df.rows.length - rows'.length), "SUCCESS"⟩])
  | IType.NEGATIVE_VALUES =>
    match colIdx df i.column with
    | some j =>
      let rows' := df.rows.filter (fun r => Val.ge0 (cellAt r j))
      ({ df with rows := rows' },
       acc ++ [⟨IType.NEGATIVE_VALUES, some i.column,
                some (df.rows.length - rows'.length), "SUCCESS"⟩])
    | none => (df, acc)
  | IType.HIGH_NULL_RATE =>
    match colIdx df i.column with
    | some j =>
      if 80 < nullPctAt df j then
        (dropColAt df j,
         acc ++ [⟨IType.HIGH_NULL_RATE, some i.column, none, "SUCCESS"⟩])
      else (df, acc)
    | none => (df, acc)
  | _ => (df, acc)

/-- `RemediationAgent.auto_remediate`: fold the issue list over a
cloned dataframe, accumulating the action log. -/
def autoRemediate (df : DF) (issues : List Issue) : DF × List Action :=
  issues.foldl (fun st i => remStep st.1 st.2 i) (df, [])

/-! ## QualityAgent.calculate_quality_score -/

/-- Penalty per issue severity: 10 for HIGH, 5 for MEDIUM, 2 for LOW,
0 otherwise (INFO). -/
def issuePenalty : Sev → ℚ
  | Sev.HIGH => 10
  | Sev.MEDIUM => 5
  | Sev.LOW => 2
  | Sev.INFO => 0

/-- Penalty per column null percentage: 5 above 50, 2 above 20. -/
def nullPenalty (pct : ℚ) : ℚ :=
  if 50 < pct then 5 else if 20 < pct then 2 else 0

/-- Per-column profile (`DataProfilerAgent._profile_column`).  The
type-specific statistics are wrapped in `Option`: the source computes
them inside a bare `try/except`, and the whole `update` is skipped
when any entry raises (all-null numeric columns make `float(None)`
raise; a single non-null value makes `std()` return null, which also
raises; all-null string columns make `int(None)` raise).  Statistics
never consulted by issue detection or scoring (min, max, mean, median,
std, string lengths, empty-string and zero counts) are omitted. -/
structure ColProfile where
  dtype : DType
  nullCount : Nat
  nullPercentage : ℚ
  uniqueCount : Nat
  uniquePercentage : ℚ
  negativeCount : Option Nat
  whitespaceIssues : Option Nat
deriving DecidableEq, Repr

/-- A dataset profile (`DataProfilerAgent.profile_dataset` result).
The derived `recommendations` strings are omitted. -/
structure Profile where
  datasetName : String
  rowCount : Nat
  columnCount : Nat
  columns : List (String × ColProfile)
  issues : List Issue
deriving DecidableEq, Repr

/-- `QualityAgent.calculate_quality_score`: start at 100, subtract the
issue penalties, then the per-column null-rate penalties, and clamp
below at 0 (`max(0, score)`). -/
def calculateQualityScore (p : Profile) : ℚ :=
  max 0 (p.columns.foldl (fun s c => s - nullPenalty c.2.nullPercentage)
    (p.issues.foldl (fun s i => s - issuePenalty i.severity) 100))

/-! ## DataProfilerAgent -/

def DType.isNumeric : DType → Bool
  | DType.dInt => true
  | DType.dFloat => true
  | _ => false

/-- Number of non-null entries of a value list. -/
def nonNullCount (vs : List Val) : Nat :=
  (vs.filter (fun v => !v.isNull)).length

/-- `DataProfilerAgent._profile_column` for the column at position `j`
with declared dtype `dt`.  `n_unique` counts null as one distinct
value, matching polars. -/
def profileColumn (df : DF) (j : Nat) (dt : DType) : ColProfile :=
  let vs := colVals df j
  let n := df.rows.length
  let nulls := (vs.filter Val.isNull).length
  let uniq := (dedupFirst vs).length
  { dtype := dt
    nullCount := nulls
    nullPercentage := (nulls : ℚ) / (n : ℚ) * 100
    uniqueCount := uniq
    uniquePercentage := (uniq : ℚ) / (n : ℚ) * 100
    negativeCount :=
      if dt.isNumeric && decide (2 ≤ nonNullCount vs) then
        some ((vs.filter Val.lt0).length)
      else none
    whitespaceIssues :=
      if dt = DType.dStr && decide (1 ≤ nonNullCount vs) then
        some ((vs.filter (fun v => stripValAt v != v)).length)
      else none }

/-- The keyword list of the NEGATIVE_VALUES detection rule. -/
def negKeywords : List String :=
  ["price", "amount", "quantity", "age", "count"]

/-- `DataProfilerAgent._detect_column_issues` for a column named `c`
with profile `cp`. -/
def detectColumnIssues (c : String) (cp : ColProfile) : List Issue :=
  (if 50 < cp.nullPercentage then
      [⟨Sev.HIGH, IType.HIGH_NULL_RATE, c⟩]
    else if 10 < cp.nullPercentage then
      [⟨Sev.MEDIUM, IType.MODERATE_NULL_RATE, c⟩]
    else [])
  ++ (if cp.uniquePercentage < 5 ∧ 1 < cp.uniqueCount then
      [⟨Sev.INFO, IType.LOW_CARDINALITY, c⟩]
    else [])
  ++ (match cp.negativeCount with
    | some k =>
      if 0 < k ∧ negKeywords.any (fun kw => containsSub (c.toLower).data kw.data) then
        [⟨Sev.HIGH, IType.NEGATIVE_VALUES, c⟩]
      else []
    | none => [])
  ++ (match cp.whitespaceIssues with
    | some k => if 0 < k then [⟨Sev.LOW, IType.WHITESPACE, c⟩] else []
    | none => [])

/-- `DataProfilerAgent._detect_dataset_issues`: whole-row duplicates,
then completely empty columns.  The DUPLICATES issue carries the
column marker `ALL`. -/
def detectDatasetIssues (df : DF) : List Issue :=
  (if 0 < df.rows.length - (dedupFirst df.rows).length then
      [⟨Sev.MEDIUM, IType.DUPLICATES, "ALL"⟩]
    else [])
  ++ ((df.cols.enum.filter
        (fun p => nullCountAt df p.1 == df.rows.length)).map
      (fun p => ⟨Sev.HIGH, IType.EMPTY_COLUMN, p.2.1⟩))

/-- `DataProfilerAgent.profile_dataset`: per-column profiles and issues
in column order, followed by the dataset-level issues. -/
def profileDataset (df : DF) (name : String) : Profile :=
  { datasetName := name
    rowCount := df.rows.length
    columnCount := df.cols.length
    columns := df.cols.enum.map
      (fun p => (p.2.1, profileColumn df p.1 p.2.2))
    issues :=
      (df.cols.enum.map
        (fun p => detectColumnIssues p.2.1 (profileColumn df p.1 p.2.2))).flatten
      ++ detectDatasetIssues df }

/-! ## MedallionDuckDB: bronze load and silver promotion

The store state carries the parquet files and the registered DuckDB
tables of the bronze and silver layers as association lists keyed by
table name; `read_parquet` of a just-written file returns the written
dataframe. -/

/-- More comparison views of a cell, as polars masks evaluate them
(null or non-numeric comparisons are null and never keep a row). -/
def Val.gtQ (v : Val) (k : ℚ) : Bool :=
  match v.num? with
  | some q => decide (k < q)
  | none => false

def Val.geQ (v : Val) (k : ℚ) : Bool :=
  match v.num? with
  | some q => decide (k ≤ q)
  | none => false

def Val.leQ (v : Val) (k : ℚ) : Bool :=
  match v.num? with
  | some q => decide (q ≤ k)
  | none => false

def Val.betweenQ (v : Val) (lo hi : ℚ) : Bool :=
  match v.num? with
  | some q => decide (lo ≤ q ∧ q ≤ hi)
  | none => false

/-- Replace (or create) the entry for `n` (DROP TABLE IF EXISTS
followed by CREATE TABLE, and plain file overwrite). -/
def setEntry (m : List (String × DF)) (n : String) (df : DF) : List (String × DF) :=
  (n, df) :: m.filter (fun p => !(p.1 == n))

structure Store where
  bronzeFiles : List (String × DF)
  bronzeTables : List (String × DF)
  silverFiles : List (String × DF)
  silverTables : List (String × DF)
deriving DecidableEq, Repr

inductive LoadMode where
  | append
  | replace
deriving DecidableEq, Repr

/-- `MedallionDuckDB.load_to_bronze`: always overwrite the parquet
file with `df`; in replace mode drop the registered table first; then
`CREATE TABLE IF NOT EXISTS ... AS SELECT * FROM read_parquet(...)`,
which is a no-op when the table already exists; return `len(df)`. -/
def loadToBronze (s : Store) (df : DF) (name : String) (mode : LoadMode) : Store × Nat :=
  let s1 := { s with bronzeFiles := setEntry s.bronzeFiles name df }
  let s2 :=
    match mode with
    | LoadMode.replace => { s1 with bronzeTables := setEntry s1.bronzeTables name df }
    | LoadMode.append =>
      match s1.bronzeTables.lookup name with
      | some _ => s1
      | none => { s1 with bronzeTables := setEntry s1.bronzeTables name df }
  (s2, df.rows.length)

/-- Model of `%Y-%m-%d` parsing: four-digit year, zero-padded month
and day, in range. -/
def parseDateYMD (s : String) : Option (Nat × Nat × Nat) :=
  match s.splitOn "-" with
  | [ys, ms, ds] =>
    match ys.toNat?, ms.toNat?, ds.toNat? with
    | some y, some m, some d =>
      if ys.length = 4 && ms.length = 2 && ds.length = 2
          && 1 ≤ m && m ≤ 12 && 1 ≤ d && d ≤ 31 then
        some (y, m, d)
      else none
    | _, _, _ => none
  | _ => none

/-- Cell-wise `str.strptime(pl.Date, "%Y-%m-%d", strict=False)`:
unparseable and null cells become null. -/
def parseDateVal : Val → Val
  | Val.vStr s =>
    match parseDateYMD s with
    | some (y, m, d) => Val.vDate y m d
    | none => Val.null
  | _ => Val.null

/-- `df.filter(...)` on the named column when it is present
(the source guards each filter with `if col in df.columns`). -/
def filterColB (df : DF) (c : String) (p : Val → Bool) : DF :=
  match colIdx df c with
  | some j => { df with rows := df.rows.filter (fun r => p (cellAt r j)) }
  | none => df

/-- Step 2 of the silver transformations: trim every Utf8 column. -/
def stripAllStrCols (df : DF) : DF :=
  df.cols.enum.foldl
    (fun acc p => if p.2.2 = DType.dStr then stripColAt acc p.1 else acc) df

/-- `MedallionDuckDB._apply_silver_transformations`, in source order:
deduplicate rows, trim string columns, lowercase column names, parse
`order_date`, drop rows with nulls in the critical columns, and filter
the documented numeric ranges. -/
def applySilverTransformations (df : DF) : DF :=
  let df1 := { df with rows := dedupFirst df.rows }
  let df2 := stripAllStrCols df1
  let df3 := { df2 with cols := df2.cols.map (fun p => (p.1.toLower, p.2)) }
  let df4 :=
    match colIdx df3 "order_date" with
    | some j =>
      { cols := mapAt (fun p => (p.1, DType.dDate)) j df3.cols
        rows := df3.rows.map (mapAt parseDateVal j) }
    | none => df3
  let df5 := ["customer_id", "order_id", "order_date"].foldl
    (fun acc c => filterColB acc c (fun v => !v.isNull)) df4
  let df6 := filterColB df5 "quantity" (fun v => Val.gtQ v 0)
  let df7 := filterColB df6 "unit_price" (fun v => Val.gtQ v 0)
  let df8 := filterColB df7 "customer_age" (fun v => Val.betweenQ v 18 100)
  filterColB df8 "satisfaction_score" (fun v => Val.betweenQ v 1 10)

/-- `MedallionDuckDB.promote_to_silver`: read the bronze table (none
when it does not exist, where Python raises), apply the silver
transformations, overwrite the silver parquet file, and re-register
the silver table (DROP IF EXISTS + CREATE = replace); return the
cleaned dataframe. -/
def promoteToSilver (s : Store) (bronzeTable silverTable : String) :
    Option (Store × DF) :=
  match s.bronzeTables.lookup bronzeTable with
  | none => none
  | some df0 =>
    let df := applySilverTransformations df0
    some ({ s with
            silverFiles := setEntry s.silverFiles silverTable df
            silverTables := setEntry s.silverTables silverTable df }, df)

/-! ## create_gold_aggregations

The four aggregate blocks of `create_gold_aggregations`, in source
order: requested name, produced gold table name.  The DuckDB query
execution (`db.create_gold_aggregate`) is an external effect and is
passed in as an oracle `exec` from gold table name to the aggregated
dataframe or an error; each block is wrapped in its own
`try/except`. -/
def goldPlan : List (String × String) :=
  [("daily_sales", "daily_sales"),
   ("customer_lifetime_value", "customer_ltv"),
   ("product_performance", "product_performance"),
   ("regional_analytics", "regional_analytics")]

def createGoldAggregations (aggregations : List String)
    (exc : String → Except String DF) : List (String × Nat) :=
  goldPlan.foldl
    (fun results p =>
      if p.1 ∈ aggregations then
        match exc p.2 with
        | Except.ok df => results ++ [(p.2, df.rows.length)]
        | Except.error _ => results
      else results) []

/-! ## Pandas / pandera schema stage of main.py

A pandas dataframe carries an index: each row is (label, cells).  The
pipeline loads with a default `RangeIndex`, so labels are `0..n-1`
(ascending); `Index.difference` returns a sorted result, which on an
ascending index is plain filtering.

`SchemaErrors.failure_cases` is a dataframe with one row per violating
(row, column, check) triple; the failing row label is stored in its
`index` **column**, while the frame itself has a fresh `RangeIndex`
`0..k-1`.  This pandera behaviour is modelled from the library's
documentation, as the library is not part of the repository. -/

structure PDF where
  cols : List String
  rows : List (Nat × List Val)
deriving DecidableEq, Repr

structure FailureCase where
  rowLabel : Nat
  column : String
  check : String
deriving DecidableEq, Repr

/-- Cell of a pandas row under a named column. -/
def pcell (pdf : PDF) (r : Nat × List Val) (c : String) : Val :=
  match pdf.cols.findIdx? (fun n => n == c) with
  | some j => r.2.getD j Val.null
  | none => Val.null

/-- `^[a-zA-Z0-9_-]+$` membership test, one character. -/
def idChar (c : Char) : Bool :=
  c.isAlphanum || c == '_' || c == '-'

/-- The `Check.str_matches(r'^[a-zA-Z0-9_-]+$')` predicate. -/
def Val.matchesIdPattern : Val → Bool
  | Val.vStr s => !s.data.isEmpty && s.data.all idChar
  | _ => false

def Val.isin (v : Val) (xs : List String) : Bool :=
  match v with
  | Val.vStr s => xs.contains s
  | _ => false

/-- The column schema of `validation/schema_validation.py`: column
name and element-wise checks (check name, predicate).  All columns are
non-nullable (pandera's default). -/
def waSchema : List (String × List (String × (Val → Bool))) :=
  [("Customer_ID", [("str_matches", Val.matchesIdPattern)]),
   ("Age", [("ge_18", fun v => v.geQ 18), ("le_100", fun v => v.leQ 100)]),
   ("Location", [("isin_location", fun v => v.isin ["Urban", "Suburban", "Rural"])]),
   ("Income_Level", [("isin_income", fun v => v.isin ["Low", "Middle", "High"])]),
   ("Total_Transactions", [("ge_0", fun v => v.geQ 0)]),
   ("Avg_Transaction_Value", [("ge_1", fun v => v.geQ 1)]),
   ("Max_Transaction_Value", [("ge_0", fun v => v.geQ 0)]),
   ("Min_Transaction_Value", [("ge_0", fun v => v.geQ 0)]),
   ("Total_Spent", [("ge_0", fun v => v.geQ 0)]),
   ("Active_Days", [("ge_0", fun v => v.geQ 0)]),
   ("Last_Transaction_Days_Ago", [("ge_0", fun v => v.geQ 0)]),
   ("Loyalty_Points_Earned", [("ge_0", fun v => v.geQ 0)]),
   ("Referral_Count", [("ge_0", fun v => v.geQ 0)]),
   ("Cashback_Received", [("ge_0", fun v => v.geQ 0)]),
   ("App_Usage_Frequency", [("isin_frequency", fun v => v.isin ["Monthly", "Weekly", "Daily"])]),
   ("Preferred_Payment_Method", []),
   ("Support_Tickets_Raised", [("ge_0", fun v => v.geQ 0)]),
   ("Issue_Resolution_Time", [("ge_0", fun v => v.geQ 0)]),
   ("Customer_Satisfaction_Score", [("ge_0", fun v => v.geQ 0), ("le_10", fun v => v.leQ 10)]),
   ("LTV", [("ge_0", fun v => v.geQ 0)])]

/-- The dataframe-level check `check_min_less_than_max`. -/
def minLeMax (pdf : PDF) (r : Nat × List Val) : Bool :=
  match (pcell pdf r "Min_Transaction_Value").num?,
      (pcell pdf r "Max_Transaction_Value").num? with
  | some mn, some mx => decide (mn ≤ mx)
  | _, _ => false

/-- Lazy pandera validation: every row is checked against every
applicable rule; each violation yields one failure case carrying the
failing row's label.  A null cell fails the non-nullable constraint
and is not run through the value checks (pandera drops nulls before
element-wise checks). -/
def schemaValidateLazy (pdf : PDF) : List FailureCase :=
  ((waSchema.map (fun col =>
    (pdf.rows.map (fun r =>
      let v := pcell pdf r col.1
      if v.isNull then [(⟨r.1, col.1, "not_nullable"⟩ : FailureCase)]
      else (col.2.filter (fun chk => !(chk.2 v))).map
        (fun chk => (⟨r.1, col.1, chk.1⟩ : FailureCase)))).flatten)).flatten)
  ++ ((pdf.rows.filter (fun r => !(minLeMax pdf r))).map
    (fun r => (⟨r.1, "<dataframe>", "min_le_max"⟩ : FailureCase)))

/-- The schema-validation stage of `main.py`: on success the frame
passes through; on `SchemaErrors` the except-block computes
`valid_indexes = df.index.difference(err.failure_cases.index)` — the
failure-case frame's positional RangeIndex `0..k-1`, **not** the
failing row labels — keeps the rows with those labels, and saves the
`k` failure cases as the failed output. -/
def mainSchemaStage (pdf : PDF) : PDF × List FailureCase :=
  let fc := schemaValidateLazy pdf
  if fc.isEmpty then (pdf, [])
  else
    ({ pdf with rows :=
        pdf.rows.filter (fun r => !((List.range fc.length).contains r.1)) }, fc)

/-! ## Helper lemmas for the quality scorer -/

theorem foldl_sub_eq (f : α → ℚ) (l : List α) (a : ℚ) :
    l.foldl (fun s x => s - f x) a = a - (l.map f).sum := by
  induction l generalizing a with
  | nil => simp
  | cons x t ih =>
    simp only [List.foldl_cons, List.map_cons, List.sum_cons, ih]
    ring

theorem sum_issuePenalty (l : List Issue) :
    (l.map (fun i => issuePenalty i.severity)).sum =
      10 * ((l.filter (fun i => i.severity == Sev.HIGH)).length : ℚ)
      + 5 * ((l.filter (fun i => i.severity == Sev.MEDIUM)).length : ℚ)
      + 2 * ((l.filter (fun i => i.severity == Sev.LOW)).length : ℚ) := by
  induction l with
  | nil => simp
  | cons i t ih =>
    cases h : i.severity <;>
      rw [List.map_cons, List.sum_cons, ih] <;>
      simp [List.filter_cons, h, issuePenalty] <;>
      ring

theorem sum_nullPenalty (l : List (String × ColProfile)) :
    (l.map (fun c => nullPenalty c.2.nullPercentage)).sum =
      5 * ((l.filter (fun c => decide (50 < c.2.nullPercentage))).length : ℚ)
      + 2 * ((l.filter (fun c =>
          decide (20 < c.2.nullPercentage ∧ c.2.nullPercentage ≤ 50))).length : ℚ) := by
  induction l with
  | nil => simp
  | cons c t ih =>
    rw [List.map_cons, List.sum_cons, ih]
    by_cases h50 : 50 < c.2.nullPercentage
    · have h2050 : ¬(20 < c.2.nullPercentage ∧ c.2.nullPercentage ≤ 50) := by
        intro hh; linarith [hh.2]
      simp [List.filter_cons, nullPenalty, h50, h2050]
      ring
    · by_cases h20 : 20 < c.2.nullPercentage
      · have h2050 : 20 < c.2.nullPercentage ∧ c.2.nullPercentage ≤ 50 :=
          ⟨h20, le_of_not_lt h50⟩
        simp [List.filter_cons, nullPenalty, h50, h20, h2050]
        ring
      · have h2050 : ¬(20 < c.2.nullPercentage ∧ c.2.nullPercentage ≤ 50) :=
          fun hh => h20 hh.1
        simp [List.filter_cons, nullPenalty, h50, h20, h2050]

theorem sum_issuePenalty_nonneg (l : List Issue) :
    0 ≤ (l.map (fun i => issuePenalty i.severity)).sum := by
  apply List.sum_nonneg
  intro x hx
  rcases List.mem_map.mp hx with ⟨i, _, rfl⟩
  cases i.severity <;> simp [issuePenalty]

theorem sum_nullPenalty_nonneg (l : List (String × ColProfile)) :
    0 ≤ (l.map (fun c => nullPenalty c.2.nullPercentage)).sum := by
  apply List.sum_nonneg
  intro x hx
  rcases List.mem_map.mp hx with ⟨c, _, rfl⟩
  unfold nullPenalty
  split <;> norm_num
  split <;> norm_num

/-- The score of any profile lies in `[0, 100]`: it is `max 0` of 100
minus a sum of nonnegative penalties. -/
theorem calculateQualityScore_bounds (p : Profile) :
    0 ≤ calculateQualityScore p ∧ calculateQualityScore p ≤ 100 := by
  unfold calculateQualityScore
  refine ⟨le_max_left 0 _, ?_⟩
  apply max_le (by norm_num)
  rw [foldl_sub_eq, foldl_sub_eq]
  have h1 := sum_issuePenalty_nonneg p.issues
  have h2 := sum_nullPenalty_nonneg p.columns
  linarith

/-- C3: the quality score equals 100 minus 10 per HIGH issue, 5 per
MEDIUM issue, 2 per LOW issue (INFO subtracting nothing), minus 5 per
column with null percentage above 50 and 2 per column with null
percentage in (20, 50] (both the issue-based and the per-column
penalty hit the same high-null column), the result clamped to
`[0, 100]`. -/
theorem calculateQualityScore_formula (p : Profile) :
    calculateQualityScore p =
      max 0 (min 100
        (100 - 10 * ((p.issues.filter (fun i => i.severity == Sev.HIGH)).length : ℚ)
          - 5 * ((p.issues.filter (fun i => i.severity == Sev.MEDIUM)).length : ℚ)
          - 2 * ((p.issues.filter (fun i => i.severity == Sev.LOW)).length : ℚ)
          - 5 * ((p.columns.filter (fun c => decide (50 < c.2.nullPercentage))).length : ℚ)
          - 2 * ((p.columns.filter (fun c =>
              decide (20 < c.2.nullPercentage ∧ c.2.nullPercentage ≤ 50))).length : ℚ))) := by
  unfold calculateQualityScore
  rw [foldl_sub_eq, foldl_sub_eq, sum_issuePenalty, sum_nullPenalty]
  rw [min_eq_right]
  · ring_nf
  · have hH : (0 : ℚ) ≤ ((p.issues.filter (fun i => i.severity == Sev.HIGH)).length : ℚ) :=
      Nat.cast_nonneg _
    have hM : (0 : ℚ) ≤ ((p.issues.filter (fun i => i.severity == Sev.MEDIUM)).length : ℚ) :=
      Nat.cast_nonneg _
    have hL : (0 : ℚ) ≤ ((p.issues.filter (fun i => i.severity == Sev.LOW)).length : ℚ) :=
      Nat.cast_nonneg _
    have hA : (0 : ℚ) ≤ ((p.columns.filter (fun c =>
        decide (50 < c.2.nullPercentage))).length : ℚ) := Nat.cast_nonneg _
    have hB : (0 : ℚ) ≤ ((p.columns.filter (fun c =>
        decide (20 < c.2.nullPercentage ∧ c.2.nullPercentage ≤ 50))).length : ℚ) :=
      Nat.cast_nonneg _
    linarith

/-- C4: for every nonempty dataset (profiling a zero-row frame with
columns raises `ZeroDivisionError` in the source), the quality score
computed from its profile lies in `[0, 100]`. -/
theorem quality_score_of_profile_in_range (df : DF) (nm : String) (h : df.rows ≠ []) :
    0 ≤ calculateQualityScore (profileDataset df nm) ∧
      calculateQualityScore (profileDataset df nm) ≤ 100 :=
  calculateQualityScore_bounds (profileDataset df nm)

/-- A concrete dataset witnessing `quality_score_of_profile_in_range`. -/
def scoreDemoDF : DF :=
  ⟨[("age", DType.dInt), ("name", DType.dStr)],
   [[Val.vInt (-5), Val.vStr " x "], [Val.null, Val.vStr "y"], [Val.vInt 7, Val.null]]⟩

theorem quality_score_of_profile_in_range_witness :
    scoreDemoDF.rows ≠ [] ∧
      (0 ≤ calculateQualityScore (profileDataset scoreDemoDF "demo") ∧
        calculateQualityScore (profileDataset scoreDemoDF "demo") ≤ 100) :=
  ⟨by decide, quality_score_of_profile_in_range scoreDemoDF "demo" (by decide)⟩

/-! ## Bronze load (C10) and silver promotion (C2) -/

theorem lookup_setEntry_self (m : List (String × DF)) (n : String) (df : DF) :
    (setEntry m n df).lookup n = some df := by
  simp [setEntry, List.lookup]

/-- C10: with `mode='append'` (the default) the parquet file is
overwritten with the new dataframe, but `CREATE TABLE IF NOT EXISTS`
leaves an already-registered bronze table untouched; the call still
returns the new dataframe's row count.  With `mode='replace'` the
registered table is replaced by the new data. -/
theorem load_to_bronze_append_does_not_append (s : Store) (df t : DF) (name : String)
    (h : s.bronzeTables.lookup name = some t) :
    (loadToBronze s df name LoadMode.append).1.bronzeTables.lookup name = some t ∧
    (loadToBronze s df name LoadMode.append).1.bronzeFiles.lookup name = some df ∧
    (loadToBronze s df name LoadMode.append).2 = df.rows.length ∧
    (loadToBronze s df name LoadMode.replace).1.bronzeTables.lookup name = some df := by
  refine ⟨?_, ?_, rfl, ?_⟩
  · simp only [loadToBronze, h]
  · simp only [loadToBronze, h, lookup_setEntry_self]
  · simp only [loadToBronze, lookup_setEntry_self]

def bronzeDemoOld : DF := ⟨[("a", DType.dInt)], [[Val.vInt 1], [Val.vInt 2]]⟩

def bronzeDemoNew : DF := ⟨[("a", DType.dInt)], [[Val.vInt 3]]⟩

def bronzeDemoStore : Store := ⟨[("t", bronzeDemoOld)], [("t", bronzeDemoOld)], [], []⟩

theorem load_to_bronze_append_does_not_append_witness :
    bronzeDemoStore.bronzeTables.lookup "t" = some bronzeDemoOld ∧
    ((loadToBronze bronzeDemoStore bronzeDemoNew "t" LoadMode.append).1.bronzeTables.lookup "t"
        = some bronzeDemoOld ∧
      (loadToBronze bronzeDemoStore bronzeDemoNew "t" LoadMode.append).1.bronzeFiles.lookup "t"
        = some bronzeDemoNew ∧
      (loadToBronze bronzeDemoStore bronzeDemoNew "t" LoadMode.append).2
        = bronzeDemoNew.rows.length ∧
      (loadToBronze bronzeDemoStore bronzeDemoNew "t" LoadMode.replace).1.bronzeTables.lookup "t"
        = some bronzeDemoNew) :=
  ⟨by decide,
   load_to_bronze_append_does_not_append bronzeDemoStore bronzeDemoNew bronzeDemoOld "t"
     (by decide)⟩

/-- C2: silver promotion is replay-safe.  If promoting the bronze
table once yields state `s'` and cleaned table `df`, promoting again
from `s'` (the raw table unchanged — promotion never writes bronze)
returns the same cleaned dataframe and registers the identical silver
table, because the cleaned output is a function of the raw table alone
and registration uses replace semantics. -/
theorem promote_to_silver_replay_safe (s s' : Store) (bt st : String) (df : DF)
    (h : promoteToSilver s bt st = some (s', df)) :
    (promoteToSilver s' bt st).map Prod.snd = some df ∧
    (promoteToSilver s' bt st).map (fun r => r.1.silverTables.lookup st)
      = some (some df) ∧
    s'.silverTables.lookup st = some df := by
  unfold promoteToSilver at h
  cases h0 : s.bronzeTables.lookup bt with
  | none => rw [h0] at h; exact absurd h (by simp)
  | some df0 =>
    rw [h0] at h
    simp only [Option.some.injEq, Prod.mk.injEq] at h
    obtain ⟨hs, hdf⟩ := h
    subst hs
    subst hdf
    refine ⟨?_, ?_, ?_⟩
    · simp [promoteToSilver, h0]
    · simp [promoteToSilver, h0, lookup_setEntry_self]
    · simp [lookup_setEntry_self]

def silverDemoRaw : DF :=
  ⟨[("Name", DType.dStr)], [[Val.vStr " a "], [Val.vStr " a "]]⟩

def silverDemoClean : DF := applySilverTransformations silverDemoRaw

def silverDemoStore : Store := ⟨[("r", silverDemoRaw)], [("r", silverDemoRaw)], [], []⟩

def silverDemoStore1 : Store :=
  { silverDemoStore with
    silverFiles := setEntry silverDemoStore.silverFiles "c" silverDemoClean
    silverTables := setEntry silverDemoStore.silverTables "c" silverDemoClean }

theorem promote_to_silver_replay_safe_witness :
    promoteToSilver silverDemoStore "r" "c" = some (silverDemoStore1, silverDemoClean) ∧
    ((promoteToSilver silverDemoStore1 "r" "c").map Prod.snd = some silverDemoClean ∧
      (promoteToSilver silverDemoStore1 "r" "c").map
          (fun r => r.1.silverTables.lookup "c") = some (some silverDemoClean) ∧
      silverDemoStore1.silverTables.lookup "c" = some silverDemoClean) :=
  ⟨by with_unfolding_all decide,
   promote_to_silver_replay_safe silverDemoStore silverDemoStore1 "r" "c" silverDemoClean
     (by with_unfolding_all decide)⟩

/-! ## Gold aggregation failure isolation (C9) -/

theorem gold_foldl_filterMap (aggs : List String) (exc : String → Except String DF)
    (l : List (String × String)) (init : List (String × Nat)) :
    l.foldl
      (fun results p =>
        if p.1 ∈ aggs then
          match exc p.2 with
          | Except.ok df => results ++ [(p.2, df.rows.length)]
          | Except.error _ => results
        else results) init
    = init ++ l.filterMap (fun p =>
        if p.1 ∈ aggs then
          match exc p.2 with
          | Except.ok df => some (p.2, df.rows.length)
          | Except.error _ => none
        else none) := by
  induction l generalizing init with
  | nil => simp
  | cons a t ih =>
    by_cases hc : a.1 ∈ aggs
    · cases he : exc a.2 <;> simp [List.filterMap_cons, hc, he, ih]
    · simp [List.filterMap_cons, hc, ih]

theorem createGold_eq_filterMap (aggs : List String) (exc : String → Except String DF) :
    createGoldAggregations aggs exc
      = goldPlan.filterMap (fun p =>
        if p.1 ∈ aggs then
          match exc p.2 with
          | Except.ok df => some (p.2, df.rows.length)
          | Except.error _ => none
        else none) := by
  unfold createGoldAggregations
  rw [gold_foldl_filterMap]
  simp

/-- C9: an aggregate whose creation fails is excluded from the
results, and any other requested aggregate that succeeds is still
present with its row count — one failure never aborts the sibling
aggregates. -/
theorem gold_aggregate_failure_isolated (aggs : List String)
    (exc : String → Except String DF) (q e : String) (p : String × String) (df : DF)
    (hq : exc q = Except.error e) (hp : p ∈ goldPlan) (hne : p.2 ≠ q)
    (hreq : p.1 ∈ aggs) (hok : exc p.2 = Except.ok df) :
    (p.2, df.rows.length) ∈ createGoldAggregations aggs exc ∧
    (createGoldAggregations aggs exc).all (fun r => r.1 != q) = true := by
  rw [createGold_eq_filterMap]
  constructor
  · exact List.mem_filterMap.mpr ⟨p, hp, by simp [hreq, hok]⟩
  · rw [List.all_eq_true]
    intro r hr
    rcases List.mem_filterMap.mp hr with ⟨a, _, ha⟩
    by_cases hc : a.1 ∈ aggs
    · rw [if_pos hc] at ha
      cases he : exc a.2 with
      | error msg => rw [he] at ha; exact absurd ha (by simp)
      | ok df2 =>
        rw [he] at ha
        simp only [Option.some.injEq] at ha
        subst ha
        simp only [bne_iff_ne, ne_eq]
        intro hqq
        rw [hqq, hq] at he
        exact Except.noConfusion he
    · rw [if_neg hc] at ha
      exact absurd ha (by simp)

def goldDemoExec : String → Except String DF := fun n =>
  if n == "daily_sales" then Except.error "boom"
  else Except.ok ⟨[("x", DType.dInt)], [[Val.vInt 1]]⟩

def goldDemoAggs : List String :=
  ["daily_sales", "customer_lifetime_value", "product_performance", "regional_analytics"]

theorem gold_aggregate_failure_isolated_witness :
    goldDemoExec "daily_sales" = Except.error "boom" ∧
    (("customer_ltv", 1) ∈ createGoldAggregations goldDemoAggs goldDemoExec ∧
      (createGoldAggregations goldDemoAggs goldDemoExec).all
        (fun r => r.1 != "daily_sales") = true) :=
  ⟨by rfl,
   gold_aggregate_failure_isolated goldDemoAggs goldDemoExec "daily_sales" "boom"
     ("customer_lifetime_value", "customer_ltv") ⟨[("x", DType.dInt)], [[Val.vInt 1]]⟩
     (by rfl) (by decide) (by decide) (by decide) (by rfl)⟩

/-! ## Schema-validation stage of main.py (C5, C6)

A valid digital-wallet row, and variants violating chosen checks. -/

def walletRow (age : Int) (loc : String) : List Val :=
  [Val.vStr "C1", Val.vInt age, Val.vStr loc, Val.vStr "Low", Val.vInt 5,
   Val.vFloat 10, Val.vFloat 50, Val.vFloat 1, Val.vFloat 100, Val.vInt 10,
   Val.vInt 3, Val.vInt 7, Val.vInt 0, Val.vFloat 2, Val.vStr "Daily",
   Val.vStr "Card", Val.vInt 0, Val.vFloat 1, Val.vInt 9, Val.vFloat 500]

def walletCols : List String := waSchema.map Prod.fst

/-- Two rows with the default RangeIndex: row 0 passes every check,
row 1 has `Age = 200`, violating only `Check.le(100)`. -/
def schemaDemoTwoRows : PDF :=
  ⟨walletCols, [(0, walletRow 25 "Urban"), (1, walletRow 200 "Urban")]⟩

/-- One row violating two checks: `Age = 200` and `Location = "Mars"`. -/
def schemaDemoOneRow : PDF :=
  ⟨walletCols, [(0, walletRow 200 "Mars")]⟩

/-- C5: the except-block of main.py does not remove the failing rows.
On a two-row frame where only row 1 fails (one failure case, for the
Age check), `df.index.difference(err.failure_cases.index)` subtracts
the failure-case frame's positional RangeIndex `{0}` from the row
labels, so the surviving "valid" output is exactly the failing row 1,
while the fully valid row 0 is dropped. -/
theorem schema_stage_keeps_failing_row :
    schemaValidateLazy schemaDemoTwoRows = [⟨1, "Age", "le_100"⟩] ∧
    (mainSchemaStage schemaDemoTwoRows).1.rows.map Prod.fst = [1] ∧
    (mainSchemaStage schemaDemoTwoRows).2 = [⟨1, "Age", "le_100"⟩] := by
  with_unfolding_all decide

/-- C6: row conservation fails after the schema stage.  A single row
failing two checks produces two failure cases; the except-block then
yields 0 "valid" rows and saves 2 failure-case rows, so
`|valid| + |failed| = 2 ≠ 1 = |input|`. -/
theorem schema_stage_breaks_row_conservation :
    schemaDemoOneRow.rows.length = 1 ∧
    schemaValidateLazy schemaDemoOneRow =
      [⟨0, "Age", "le_100"⟩, ⟨0, "Location", "isin_location"⟩] ∧
    (mainSchemaStage schemaDemoOneRow).1.rows.length = 0 ∧
    (mainSchemaStage schemaDemoOneRow).1.rows.length
      + (mainSchemaStage schemaDemoOneRow).2.length = 2 := by
  with_unfolding_all decide

/-! ## NEGATIVE_VALUES remediation (C7) -/

def negDemoDF : DF :=
  ⟨[("amount", DType.dInt)], [[Val.vInt (-1)], [Val.null], [Val.vInt 2]]⟩

def negIssue : Issue := ⟨Sev.HIGH, IType.NEGATIVE_VALUES, "amount"⟩

/-- C7 counterexample: `filter(pl.col(c) >= 0)` drops null rows too.
The null row of `negDemoDF` is not retained, and the logged
`rows_removed` is 2 although only one row is negative. -/
theorem negative_values_drops_nulls_counterexample :
    [Val.null] ∈ negDemoDF.rows ∧
    [Val.null] ∉ (autoRemediate negDemoDF [negIssue]).1.rows ∧
    (autoRemediate negDemoDF [negIssue]).2 =
      [⟨IType.NEGATIVE_VALUES, some "amount", some 2, "SUCCESS"⟩] ∧
    (negDemoDF.rows.filter (fun r => Val.lt0 (cellAt r 0))).length = 1 := by
  with_unfolding_all decide

/-- C7 amended: for a NEGATIVE_VALUES issue naming a numeric column
present in the dataset, remediation keeps exactly the rows whose value
in that column is non-negative and non-null — rows with a negative
**or null** value are removed — and logs `rows_removed` equal to the
number of negative-or-null rows. -/
theorem negative_values_remediation (df : DF) (i : Issue) (j : Nat)
    (ht : i.itype = IType.NEGATIVE_VALUES) (hj : colIdx df i.column = some j)
    (hnum : ∀ r ∈ df.rows, Val.isNumOrNull (cellAt r j) = true) :
    (autoRemediate df [i]).1.cols = df.cols ∧
    (autoRemediate df [i]).1.rows = df.rows.filter (fun r => Val.ge0 (cellAt r j)) ∧
    (autoRemediate df [i]).2 =
      [⟨IType.NEGATIVE_VALUES, some i.column,
        some ((df.rows.filter (fun r => !(Val.ge0 (cellAt r j)))).length), "SUCCESS"⟩] := by
  obtain ⟨sv, ity, c⟩ := i
  simp only at ht hj ⊢
  subst ht
  simp only [autoRemediate, List.foldl_cons, List.foldl_nil, remStep, hj, List.nil_append]
  refine ⟨trivial, trivial, ?_⟩
  rw [length_filter_not_eq_sub]

def negWitnessDF : DF :=
  ⟨[("price", DType.dFloat)], [[Val.vFloat (-3)], [Val.vFloat 4]]⟩

def negWitnessIssue : Issue := ⟨Sev.HIGH, IType.NEGATIVE_VALUES, "price"⟩

theorem negative_values_remediation_witness :
    negWitnessIssue.itype = IType.NEGATIVE_VALUES ∧
    colIdx negWitnessDF negWitnessIssue.column = some 0 ∧
    (∀ r ∈ negWitnessDF.rows, Val.isNumOrNull (cellAt r 0) = true) ∧
    ((autoRemediate negWitnessDF [negWitnessIssue]).1.cols = negWitnessDF.cols ∧
      (autoRemediate negWitnessDF [negWitnessIssue]).1.rows
        = negWitnessDF.rows.filter (fun r => Val.ge0 (cellAt r 0)) ∧
      (autoRemediate negWitnessDF [negWitnessIssue]).2 =
        [⟨IType.NEGATIVE_VALUES, some negWitnessIssue.column,
          some ((negWitnessDF.rows.filter
            (fun r => !(Val.ge0 (cellAt r 0)))).length), "SUCCESS"⟩]) :=
  ⟨rfl, by with_unfolding_all decide, by with_unfolding_all decide,
   negative_values_remediation negWitnessDF negWitnessIssue 0 rfl
     (by with_unfolding_all decide) (by with_unfolding_all decide)⟩

/-! ## HIGH_NULL_RATE remediation (C8) -/

def hnrDemoDF : DF := ⟨[("a", DType.dInt)], [[Val.null], [Val.vInt 1]]⟩

def hnrIssue : Issue := ⟨Sev.HIGH, IType.HIGH_NULL_RATE, "a"⟩

/-- C8 counterexample: when the recomputed null rate does not exceed
80 the source records **nothing** — the action list stays empty, so no
RemediationAction with status SKIPPED (or any status) exists. -/
theorem high_null_rate_no_skip_action_counterexample :
    colIdx hnrDemoDF "a" = some 0 ∧
    nullPctAt hnrDemoDF 0 = 50 ∧
    hnrDemoDF.rows ≠ [] ∧
    (autoRemediate hnrDemoDF [hnrIssue]).1 = hnrDemoDF ∧
    (autoRemediate hnrDemoDF [hnrIssue]).2 = [] := by
  with_unfolding_all decide

/-- C8 amended: for a HIGH_NULL_RATE issue naming a present column of
a nonempty dataset (the source divides by `len(df)`), the null rate is
recomputed on the current state; iff it exceeds 80 the column is
dropped and a SUCCESS action logged, and otherwise the dataset is
unchanged and **no** action of any status is recorded. -/
theorem high_null_rate_remediation (df : DF) (i : Issue) (j : Nat)
    (ht : i.itype = IType.HIGH_NULL_RATE) (hj : colIdx df i.column = some j)
    (hne : df.rows ≠ []) :
    (80 < nullPctAt df j →
      (autoRemediate df [i]).1 = dropColAt df j ∧
      (autoRemediate df [i]).2 = [⟨IType.HIGH_NULL_RATE, some i.column, none, "SUCCESS"⟩]) ∧
    (¬ 80 < nullPctAt df j →
      (autoRemediate df [i]).1 = df ∧ (autoRemediate df [i]).2 = []) := by
  obtain ⟨sv, ity, c⟩ := i
  simp only at ht hj ⊢
  subst ht
  constructor
  · intro h80
    simp only [autoRemediate, List.foldl_cons, List.foldl_nil, remStep, hj,
      List.nil_append, if_pos h80]
    exact ⟨trivial, trivial⟩
  · intro h80
    simp only [autoRemediate, List.foldl_cons, List.foldl_nil, remStep, hj,
      List.nil_append, if_neg h80]
    exact ⟨trivial, trivial⟩

def hnrDropDF : DF :=
  ⟨[("a", DType.dInt), ("b", DType.dInt)],
   [[Val.null, Val.vInt 1], [Val.null, Val.vInt 2], [Val.null, Val.vInt 3],
    [Val.null, Val.vInt 4], [Val.vInt 5, Val.vInt 5]]⟩

theorem high_null_rate_remediation_witness :
    hnrIssue.itype = IType.HIGH_NULL_RATE ∧
    colIdx hnrDropDF hnrIssue.column = some 0 ∧
    hnrDropDF.rows ≠ [] ∧
    ((80 < nullPctAt hnrDropDF 0 →
      (autoRemediate hnrDropDF [hnrIssue]).1 = dropColAt hnrDropDF 0 ∧
      (autoRemediate hnrDropDF [hnrIssue]).2 =
        [⟨IType.HIGH_NULL_RATE, some hnrIssue.column, none, "SUCCESS"⟩]) ∧
    (¬ 80 < nullPctAt hnrDropDF 0 →
      (autoRemediate hnrDropDF [hnrIssue]).1 = hnrDropDF ∧
      (autoRemediate hnrDropDF [hnrIssue]).2 = [])) :=
  ⟨rfl, by with_unfolding_all decide, by with_unfolding_all decide,
   high_null_rate_remediation hnrDropDF hnrIssue 0 rfl
     (by with_unfolding_all decide) (by with_unfolding_all decide)⟩

/-! ## Idempotence of auto-remediation (C1) -/

/-- After erasing the unique column named `c`, no column of that name
remains (column names are assumed unique, the dataset invariant). -/
theorem findIdx_name_eraseIdx_none (l : List (String × DType)) (j : Nat) (c : String)
    (hnd : (l.map Prod.fst).Nodup)
    (hj : l.findIdx? (fun p => p.1 == c) = some j) :
    (l.eraseIdx j).findIdx? (fun p => p.1 == c) = none := by
  rcases List.findIdx?_eq_some_iff_getElem.mp hj with ⟨hlen, hpj, _⟩
  rw [List.findIdx?_eq_none_iff]
  intro x hx
  rcases List.mem_eraseIdx_iff_getElem.mp hx with ⟨i, hi, hij, hxe⟩
  by_contra hcon
  have hxc : x.1 = c := by
    have hb : (x.1 == c) = true := by
      cases hb2 : (x.1 == c) with
      | false => exact absurd hb2 hcon
      | true => rfl
    exact eq_of_beq hb
  have hjc : l[j].1 = c := by
    have hb : (l[j].1 == c) = true := hpj
    exact eq_of_beq hb
  have hi2 : i < (l.map Prod.fst).length := by simpa using hi
  have hj2 : j < (l.map Prod.fst).length := by simpa using hlen
  have h1 : (l.map Prod.fst)[i] = (l.map Prod.fst)[j] := by
    rw [List.getElem_map, List.getElem_map, hjc]
    rw [← hxe] at hxc
    exact hxc
  exact hij ((List.Nodup.getElem_inj_iff hnd).mp h1)

def wsDupDF : DF := ⟨[("name", DType.dStr)], [[Val.vStr "a"], [Val.vStr "a "]]⟩

def wsDupIssues : List Issue :=
  [⟨Sev.MEDIUM, IType.DUPLICATES, "ALL"⟩, ⟨Sev.LOW, IType.WHITESPACE, "name"⟩]

def wsDupFirstPass : DF := (autoRemediate wsDupDF wsDupIssues).1

/-- C1 counterexample: auto-remediation is not idempotent.  On two
distinct rows `"a"` and `"a "` with issues `[DUPLICATES, WHITESPACE]`,
the first pass deduplicates (no-op) and then trims, leaving two equal
rows; the second pass with the same issue list collapses them to one
row — the returned dataset differs from its input — and it also
records two fresh SUCCESS actions even though trimming changes
nothing. -/
theorem auto_remediate_not_idempotent_counterexample :
    wsDupFirstPass.rows = [[Val.vStr "a"], [Val.vStr "a"]] ∧
    (autoRemediate wsDupFirstPass wsDupIssues).1 ≠ wsDupFirstPass ∧
    (autoRemediate wsDupFirstPass wsDupIssues).1.rows = [[Val.vStr "a"]] ∧
    (autoRemediate wsDupFirstPass wsDupIssues).2.length = 2 ∧
    (autoRemediate wsDupFirstPass wsDupIssues).2.all
      (fun a => a.status == "SUCCESS") = true := by
  with_unfolding_all decide

/-- C1 amended: each single-issue remediation is idempotent on the
dataset (under the data-model invariant of unique column names):
running `auto_remediate` a second time on its own output with the same
one-issue list returns a dataset equal to its input.  With several
issues the second pass can change the dataset (see the counterexample)
and applicable WHITESPACE/DUPLICATES/NEGATIVE_VALUES issues always
re-log SUCCESS actions. -/
theorem auto_remediate_single_issue_idempotent (df : DF) (i : Issue)
    (hnd : (df.cols.map Prod.fst).Nodup) :
    (autoRemediate (autoRemediate df [i]).1 [i]).1 = (autoRemediate df [i]).1 := by
  obtain ⟨sv, ity, c⟩ := i
  simp only [autoRemediate, List.foldl_cons, List.foldl_nil]
  cases ity with
  | WHITESPACE =>
    cases hj : colIdx df c with
    | none => simp only [remStep, hj]
    | some j =>
      by_cases hd : (df.cols.get? j).map Prod.snd = some DType.dStr
      · have h1 : remStep df [] ⟨sv, IType.WHITESPACE, c⟩ =
            (stripColAt df j, [⟨IType.WHITESPACE, some c, none, "SUCCESS"⟩]) := by
          simp only [remStep, hj, if_pos hd, List.nil_append]
        rw [h1]
        have hj2 : colIdx (stripColAt df j) c = some j := hj
        have hd2 : ((stripColAt df j).cols.get? j).map Prod.snd = some DType.dStr := hd
        simp only [remStep, hj2, if_pos hd2]
        exact stripColAt_idem df j
      · have h1 : remStep df [] ⟨sv, IType.WHITESPACE, c⟩ = (df, []) := by
          simp only [remStep, hj, if_neg hd]
        rw [h1]
        simp only [remStep, hj, if_neg hd]
  | DUPLICATES =>
    have h1 : remStep df [] ⟨sv, IType.DUPLICATES, c⟩ =
        ({ df with rows := dedupFirst df.rows },
         [⟨IType.DUPLICATES, none,
           some (df.rows.length - (dedupFirst df.rows).length), "SUCCESS"⟩]) := by
      simp only [remStep, List.nil_append]
    rw [h1]
    simp only [remStep]
    show (⟨df.cols, dedupFirst (dedupFirst df.rows)⟩ : DF) = ⟨df.cols, dedupFirst df.rows⟩
    rw [dedupFirst_idem]
  | NEGATIVE_VALUES =>
    cases hj : colIdx df c with
    | none => simp only [remStep, hj]
    | some j =>
      have h1 : remStep df [] ⟨sv, IType.NEGATIVE_VALUES, c⟩ =
          ({ df with rows := df.rows.filter (fun r => Val.ge0 (cellAt r j)) },
           [⟨IType.NEGATIVE_VALUES, some c,
             some (df.rows.length
               - (df.rows.filter (fun r => Val.ge0 (cellAt r j))).length), "SUCCESS"⟩]) := by
        simp only [remStep, hj, List.nil_append]
      rw [h1]
      have hj2 : colIdx (⟨df.cols, df.rows.filter (fun r => Val.ge0 (cellAt r j))⟩ : DF) c = some j := hj
      simp only [remStep, hj2]
      show (⟨df.cols, (df.rows.filter (fun r => Val.ge0 (cellAt r j))).filter (fun r => Val.ge0 (cellAt r j))⟩ : DF) = ⟨df.cols, df.rows.filter (fun r => Val.ge0 (cellAt r j))⟩
      rw [filter_self_idem]
  | HIGH_NULL_RATE =>
    cases hj : colIdx df c with
    | none => simp only [remStep, hj]
    | some j =>
      by_cases h80 : 80 < nullPctAt df j
      · have h1 : remStep df [] ⟨sv, IType.HIGH_NULL_RATE, c⟩ =
            (dropColAt df j, [⟨IType.HIGH_NULL_RATE, some c, none, "SUCCESS"⟩]) := by
          simp only [remStep, hj, if_pos h80, List.nil_append]
        rw [h1]
        have h2 : colIdx (dropColAt df j) c = none :=
          findIdx_name_eraseIdx_none df.cols j c hnd hj
        simp only [remStep, h2]
      · have h1 : remStep df [] ⟨sv, IType.HIGH_NULL_RATE, c⟩ = (df, []) := by
          simp only [remStep, hj, if_neg h80]
        rw [h1]
        simp only [remStep, hj, if_neg h80]
  | MODERATE_NULL_RATE => rfl
  | LOW_CARDINALITY => rfl
  | EMPTY_COLUMN => rfl

theorem auto_remediate_single_issue_idempotent_witness :
    (wsDupDF.cols.map Prod.fst).Nodup ∧
    (autoRemediate (autoRemediate wsDupDF [⟨Sev.MEDIUM, IType.DUPLICATES, "ALL"⟩]).1
        [⟨Sev.MEDIUM, IType.DUPLICATES, "ALL"⟩]).1
      = (autoRemediate wsDupDF [⟨Sev.MEDIUM, IType.DUPLICATES, "ALL"⟩]).1 :=
  ⟨by decide,
   auto_remediate_single_issue_idempotent wsDupDF ⟨Sev.MEDIUM, IType.DUPLICATES, "ALL"⟩
     (by decide)⟩

end DVE
